import Mathlib

/-!
Shallow embedding of `src/source/features/pr-review-status.tsx` (refined-github
pr-review-status feature): the pure classification helpers, the badge
constructor `createReviewBadge`, and an explicit-state model of the DOM
annotation routine `addReviewStatus`.

Modelling conventions:
* TypeScript `undefined`/optional fields become `Option`.
* JavaScript truthiness of strings is explicit: the empty string is falsy,
  so guards of the form `x && ...` on a string `x` test `x != ""`.
* JSX elements are modelled by `BadgeEl`, keeping the class name, the
  aria-label, the main child (icon or image) and the optional nested
  indicator span (by its aria-label) -- the data the spec talks about.
-/

/-- The five concrete review states of the TS union `ReviewState`
(`undefined` is represented by `Option RState` at use sites). -/
inductive RState where
  | APPROVED
  | CHANGES_REQUESTED
  | COMMENTED
  | DISMISSED
  | PENDING
deriving DecidableEq, Repr

/-- `commit { oid }` object in the GraphQL response. -/
structure Commit where
  oid : String
deriving DecidableEq, Repr

/-- `author { login }` object in the GraphQL response. -/
structure Author where
  login : String
deriving DecidableEq, Repr

/-- A node of `reviews(states: APPROVED, first: 10)`: `{state, author?}`. -/
structure ReviewNode where
  state : String
  author : Option Author
deriving DecidableEq, Repr

/-- The `reviews` connection: `{nodes: [...]}`. -/
structure ReviewConnection where
  nodes : List ReviewNode
deriving DecidableEq, Repr

/-- A node of `reviewThreads(first: 10)`: `{isResolved}`. -/
structure ThreadNode where
  isResolved : Bool
deriving DecidableEq, Repr

/-- The `reviewThreads` connection. -/
structure ThreadConnection where
  nodes : List ThreadNode
deriving DecidableEq, Repr

/-- A node of `latestReviews(first: 10)`: `{state, commit?}`. -/
structure LatestReviewNode where
  state : String
  commit : Option Commit
deriving DecidableEq, Repr

/-- The `latestReviews` connection. -/
structure LatestReviewConnection where
  nodes : List LatestReviewNode
deriving DecidableEq, Repr

/-- `viewerLatestReview { state, commit? }`; `state` is the TS `ReviewState`
union, which includes `undefined`. -/
structure ViewerLatestReview where
  state : Option RState
  commit : Option Commit
deriving DecidableEq, Repr

/-- The per-pull-request response object `prData` consumed by
`createReviewBadge` (lines 213-225 of the source). -/
structure PrData where
  isDraft : Bool
  title : String
  author : Option Author
  reviews : Option ReviewConnection
  reviewThreads : Option ThreadConnection
  latestReviews : Option LatestReviewConnection
  viewerLatestReview : Option ViewerLatestReview
  headRefOid : String
deriving DecidableEq, Repr

/-- One step of the `distinctApprovers` set construction in
`getApprovalCount`: insert the login of an APPROVED review whose
`author?.login` is truthy (present and non-empty), deduplicating. -/
def approvalStep (acc : List String) (review : ReviewNode) : List String :=
  if review.state == "APPROVED" then
    match review.author with
    | some a => if a.login != "" && !acc.contains a.login then acc ++ [a.login] else acc
    | none => acc
  else acc

/-- `getApprovalCount` (source lines 67-81): the number of distinct
reviewers who approved.  `review.author?.login` in the guard is a JS
truthiness test, so an empty login is skipped like an absent author. -/
def getApprovalCount (reviews : Option ReviewConnection) : Nat :=
  match reviews with
  | none => 0
  | some rs => (rs.nodes.foldl approvalStep []).length

/-- `isReadyToMerge` (source lines 83-89). -/
def isReadyToMerge (isMyPr : Bool) (isDraft : Bool)
    (reviews : Option ReviewConnection) : Bool :=
  isMyPr && !isDraft && decide (2 ≤ getApprovalCount reviews)

/-- Scan for the character sequence of "wip" anywhere in a list of
characters (the semantics of `String.prototype.includes`). -/
def wipScan : List Char → Bool
  | [] => false
  | c :: rest => List.isPrefixOf ['w', 'i', 'p'] (c :: rest) || wipScan rest

/-- `title.toLowerCase().includes('wip')` from `needsReview`; the
lower-casing is applied character-wise. -/
def titleContainsWip (title : String) : Bool :=
  wipScan (title.data.map Char.toLower)

/-- `needsReview` (source lines 91-98): no viewer review, not a draft,
title does not contain "wip" case-insensitively. -/
def needsReview (reviewState : Option RState) (isDraft : Bool)
    (title : String) : Bool :=
  reviewState.isNone && !isDraft && !titleContainsWip title

/-- `hasNewCommitsAfterReview` (source lines 100-105):
`Boolean(reviewCommitOid && headRefOid && reviewCommitOid !== headRefOid)`.
JS truthiness makes an absent or EMPTY oid falsy. -/
def hasNewCommitsAfterReview (reviewCommitOid headRefOid : Option String) : Bool :=
  match reviewCommitOid, headRefOid with
  | some r, some h => r != "" && h != "" && r != h
  | _, _ => false

/-- The record returned by `getLatestCommentOrChangesRequested`. -/
structure LatestCommentOrChanges where
  state : String
  commitOid : Option String
deriving DecidableEq, Repr

/-- The scan of `latestReviews.nodes` inside
`getLatestCommentOrChangesRequested`: first node whose state is
COMMENTED or CHANGES_REQUESTED. -/
def findCommentOrChanges : List LatestReviewNode → Option LatestCommentOrChanges
  | [] => none
  | review :: rest =>
    if review.state == "COMMENTED" || review.state == "CHANGES_REQUESTED" then
      some { state := review.state, commitOid := review.commit.map Commit.oid }
    else findCommentOrChanges rest

/-- `getLatestCommentOrChangesRequested` (source lines 107-125). -/
def getLatestCommentOrChangesRequested
    (latestReviews : Option LatestReviewConnection) : Option LatestCommentOrChanges :=
  match latestReviews with
  | none => none
  | some lr => findCommentOrChanges lr.nodes

/-- `ReviewIconConfig` (source lines 29-33); the JSX icon element is kept
by its component name. -/
structure ReviewIconConfig where
  icon : String
  label : String
  className : String
deriving DecidableEq, Repr

/-- `getReviewIconConfig` (source lines 35-65). -/
def getReviewIconConfig (reviewState : Option RState) (hasNewCommits : Bool) :
    Option ReviewIconConfig :=
  match reviewState with
  | some RState.APPROVED =>
    some { icon := "CheckIcon"
           label := if hasNewCommits then
               "You approved this PR (new commits since review)"
             else "You approved this PR"
           className := "rgh-review-status-approved" }
  | some RState.CHANGES_REQUESTED =>
    some { icon := "XIcon"
           label := if hasNewCommits then
               "You requested changes on this PR (new commits since review)"
             else "You requested changes on this PR"
           className := "rgh-review-status-changes" }
  | some RState.COMMENTED =>
    some { icon := "CommentIcon"
           label := if hasNewCommits then
               "You commented on this PR (new commits since review)"
             else "You commented on this PR"
           className := "rgh-review-status-commented" }
  | _ => none

/-- The badge `<span>` produced by `createReviewBadge`: its class list, its
aria-label, its main child (icon component or image asset) and, when
present, the aria-label of the nested `rgh-review-status-indicator` span. -/
structure BadgeEl where
  className : String
  ariaLabel : String
  child : String
  indicator : Option String
deriving DecidableEq, Repr

/-- `reviewThreads?.nodes?.some(thread => !thread.isResolved) ?? false`
(source line 236). -/
def hasOpenConversations (reviewThreads : Option ThreadConnection) : Bool :=
  match reviewThreads with
  | some ts => ts.nodes.any fun thread => !thread.isResolved
  | none => false

/-- `createReviewBadge` (source lines 212-321), returning the badge element
or `none` where the source returns `undefined`.  `isMyPr` is the strict
equality `author?.login === loggedInUser` (so two absent values compare
equal, as in JS). -/
def createReviewBadge (prData : PrData) (loggedInUser : Option String) :
    Option BadgeEl :=
  let reviewState := prData.viewerLatestReview.bind ViewerLatestReview.state
  let isMyPr := prData.author.map Author.login == loggedInUser
  if isReadyToMerge isMyPr prData.isDraft prData.reviews then
    let approvalCount := getApprovalCount prData.reviews
    let hasOpenConv := hasOpenConversations prData.reviewThreads
    some { className := "rgh-pr-review-status tooltipped tooltipped-n rgh-review-status-to-merge"
           ariaLabel := "Ready to merge (" ++ toString approvalCount ++ " approvals)"
             ++ (if hasOpenConv then " - Open conversations" else "")
           child := "merge-parrot.gif"
           indicator := if hasOpenConv then some "Open conversations" else none }
  else
    let feedbackBadge : Option BadgeEl :=
      if isMyPr && !prData.isDraft then
        match getLatestCommentOrChangesRequested prData.latestReviews with
        | some latest =>
          if !hasNewCommitsAfterReview latest.commitOid (some prData.headRefOid) then
            some { className := "rgh-pr-review-status tooltipped tooltipped-n rgh-review-status-feedback"
                   ariaLabel := if latest.state == "CHANGES_REQUESTED" then
                       "Changes requested on your PR"
                     else "Comment on your PR"
                   child := "FileDiffIcon"
                   indicator := none }
          else none
        | none => none
      else none
    match feedbackBadge with
    | some badge => some badge
    | none =>
      if isMyPr then none
      else if needsReview reviewState prData.isDraft prData.title then
        some { className := "rgh-pr-review-status tooltipped tooltipped-n rgh-review-status-needed"
               ariaLabel := "Review needed"
               child := "EyeIcon"
               indicator := none }
      else if reviewState.isNone || reviewState == some RState.DISMISSED
          || reviewState == some RState.PENDING then none
      else
        let reviewCommitOid :=
          prData.viewerLatestReview.bind fun v => v.commit.map Commit.oid
        let hasNewCommits := hasNewCommitsAfterReview reviewCommitOid (some prData.headRefOid)
        match getReviewIconConfig reviewState hasNewCommits with
        | none => none
        | some iconConfig =>
          let statusClassName := if hasNewCommits then
              "rgh-review-status-updated" else "rgh-review-status-reviewed"
          some { className := "rgh-pr-review-status tooltipped tooltipped-n " ++ statusClassName
                 ariaLabel := iconConfig.label
                 child := iconConfig.icon
                 indicator := if hasNewCommits then
                     some "New commits since your review" else none }

/-!
Model of the annotation routine `addReviewStatus` (source lines 127-210).

A `Row` stands for one candidate anchor together with its enclosing
`.js-issue-row` element.  `badges` counts the `rgh-pr-review-status`
elements in the row; the routine only ever inserts a badge immediately
after the link, so the filter `row.querySelector('.rgh-pr-review-status')`
(line 132) and the recheck `link.nextElementSibling?.classList.contains(...)`
(line 201) both read `badges != 0`.  Each anchor sits in its own row, so
the page is a list of rows and the per-config loop is a map over it.
The network is a function from batch keys to optional response objects,
and the produced batch query is represented by the list of its keys.
-/

/-- A pull-request row of the page: the anchor pathname, whether the
anchor has an enclosing `.js-issue-row` (`link.closest`, line 131),
and how many badge elements the row currently holds. -/
structure Row where
  pathname : String
  inIssueRow : Bool
  badges : Nat
deriving DecidableEq, Repr

/-- `PrConfig` without the live link element (source lines 21-27). -/
structure PrConfig where
  key : String
  owner : String
  name : String
  number : Option Nat
deriving DecidableEq, Repr

/-- The destructuring `const [, owner, name, , prNumber] = link.pathname.split('/')`
followed by `api.escapeKey(...)` and `Number(prNumber)` (source lines
134-143).  `escapeKey` is an external helper and is passed in abstractly;
`Number` on a non-numeric string is modelled by `Option Nat`. -/
def toPrConfig (escapeKey : String → String → String → String)
    (pathname : String) : PrConfig :=
  let parts := pathname.splitOn "/"
  let owner := parts.getD 1 ""
  let name := parts.getD 2 ""
  let prNumber := parts.getD 4 ""
  { key := escapeKey owner name prNumber
    owner := owner
    name := name
    number := prNumber.toNat? }

/-- The filter of source lines 129-133: keep links that sit in a
`.js-issue-row` that does not already hold a badge. -/
def rowPending (r : Row) : Bool :=
  r.inIssueRow && r.badges == 0

/-- The body of the `for` loop of source lines 194-209, restricted to one
row: look the row up in the response, skip when the data is missing
(lines 195-198), skip when a badge already sits after the link
(lines 201-203), otherwise build the badge and insert it (lines 205-208).
Rows that did not pass the filter of lines 129-133 are untouched. -/
def processRow (escapeKey : String → String → String → String)
    (response : String → Option PrData) (loggedInUser : Option String)
    (r : Row) : Row :=
  if rowPending r then
    match response (toPrConfig escapeKey r.pathname).key with
    | none => r
    | some prData =>
      if r.badges != 0 then r
      else
        match createReviewBadge prData loggedInUser with
        | none => r
        | some _ => { r with badges := r.badges + 1 }
  else r

/-- `addReviewStatus` over a page of rows: filter the pending rows, return
early with no query when none remain (source lines 146-148), otherwise
issue one batched query (represented by its list of keys, lines 151-191)
and run the insertion loop.  The first component is `none` exactly when
no network call is made. -/
def runAddReviewStatus (escapeKey : String → String → String → String)
    (response : String → Option PrData) (loggedInUser : Option String)
    (page : List Row) : Option (List String) × List Row :=
  let prConfigs := (page.filter rowPending).map
    fun r => toPrConfig escapeKey r.pathname
  if prConfigs.length == 0 then
    (none, page)
  else
    (some (prConfigs.map PrConfig.key),
     page.map (processRow escapeKey response loggedInUser))

/-!
Derived guards and claim-side definitions used by the theorems below.
-/

/-- The argument pair of the `hasNewCommitsAfterReview` call in the final
block of `createReviewBadge` (source lines 299-300):
`viewerLatestReview?.commit?.oid` against `headRefOid`. -/
def viewerHasNewCommits (pd : PrData) : Bool :=
  hasNewCommitsAfterReview
    (pd.viewerLatestReview.bind fun v => v.commit.map Commit.oid)
    (some pd.headRefOid)

/-- The guard under which the FeedbackPending block of `createReviewBadge`
(source lines 258-274) returns a badge, given that the viewer authored the
PR: not a draft, a latest COMMENTED/CHANGES_REQUESTED review exists, and
`hasNewCommitsAfterReview` is false for it. -/
def feedbackPendingApplies (pd : PrData) : Bool :=
  !pd.isDraft &&
    (match getLatestCommentOrChangesRequested pd.latestReviews with
     | some latest => !hasNewCommitsAfterReview latest.commitOid (some pd.headRefOid)
     | none => false)

/-- Following the words of claim C10: the approving logins among the
fetched review nodes -- each APPROVED review with a present author
contributes its login. -/
def claimApprovingLogins (nodes : List ReviewNode) : List String :=
  nodes.filterMap fun review =>
    match review.author with
    | some a => if review.state == "APPROVED" then some a.login else none
    | none => none

/-- The login a review node contributes to the `distinctApprovers` set of
`getApprovalCount`: present exactly when the state is APPROVED and the
author login is present AND non-empty (the JS truthiness guard
`review.author?.login`). -/
def codeApprover (review : ReviewNode) : Option String :=
  match review.author with
  | some a => if review.state == "APPROVED" && a.login != "" then some a.login else none
  | none => none

/-- The logins the source actually collects in `getApprovalCount`. -/
def codeApprovingLogins (nodes : List ReviewNode) : List String :=
  nodes.filterMap codeApprover

/-- All author logins present among the fetched review nodes. -/
def allLogins (nodes : List ReviewNode) : List String :=
  nodes.filterMap fun review => review.author.map Author.login

/-!
Concrete inputs used by witnesses and counterexamples.
-/

/-- Own PR, two distinct approvals, one unresolved thread. -/
def pdReadyEx : PrData :=
  { isDraft := false
    title := "Add feature"
    author := some { login := "me" }
    reviews := some { nodes := [{ state := "APPROVED", author := some { login := "alice" } },
                                { state := "APPROVED", author := some { login := "bob" } }] }
    reviewThreads := some { nodes := [{ isResolved := false }] }
    latestReviews := some { nodes := [{ state := "CHANGES_REQUESTED", commit := some { oid := "h1" } }] }
    viewerLatestReview := none
    headRefOid := "h1" }

/-- Own PR, one approval, head-matched CHANGES_REQUESTED review. -/
def pdFeedbackEx : PrData :=
  { isDraft := false
    title := "Fix bug"
    author := some { login := "me" }
    reviews := some { nodes := [{ state := "APPROVED", author := some { login := "alice" } }] }
    reviewThreads := none
    latestReviews := some { nodes := [{ state := "APPROVED", commit := some { oid := "zz" } },
                                      { state := "CHANGES_REQUESTED", commit := some { oid := "h2" } }] }
    viewerLatestReview := none
    headRefOid := "h2" }

/-- Someone else's PR, not reviewed by the viewer, plain title. -/
def pdNoReviewEx : PrData :=
  { isDraft := false
    title := "Add feature"
    author := some { login := "other" }
    reviews := none
    reviewThreads := none
    latestReviews := none
    viewerLatestReview := none
    headRefOid := "h3" }

/-- Someone else's PR approved by the viewer at commit "abc", head now "def". -/
def pdApprovedEx : PrData :=
  { isDraft := false
    title := "Add feature"
    author := some { login := "other" }
    reviews := none
    reviewThreads := none
    latestReviews := none
    viewerLatestReview := some { state := some RState.APPROVED, commit := some { oid := "abc" } }
    headRefOid := "def" }

/-- Own draft PR with no approvals and no feedback. -/
def pdOwnDraftEx : PrData :=
  { isDraft := true
    title := "Add feature"
    author := some { login := "me" }
    reviews := none
    reviewThreads := none
    latestReviews := none
    viewerLatestReview := none
    headRefOid := "h4" }

/-- Own PR whose latest CHANGES_REQUESTED review carries no commit oid. -/
def pdNoOidEx : PrData :=
  { isDraft := false
    title := "Fix bug"
    author := some { login := "me" }
    reviews := none
    reviewThreads := none
    latestReviews := some { nodes := [{ state := "CHANGES_REQUESTED", commit := none }] }
    viewerLatestReview := none
    headRefOid := "h5" }

/-- A concrete `escapeKey`. -/
def escapeKeyEx (owner name number : String) : String :=
  owner ++ "_" ++ name ++ "_" ++ number

/-- A concrete batch response under which every requested pull request
resolves to `pdReadyEx`. -/
def responseEx : String → Option PrData :=
  fun _ => some pdReadyEx

/-- A concrete batch response with every pull request absent. -/
def responseNoneEx : String → Option PrData :=
  fun _ => none

/-- A concrete page: two pending rows and one row outside an issue row. -/
def pageEx : List Row :=
  [{ pathname := "/o/r/pull/1", inIssueRow := true, badges := 0 },
   { pathname := "/o/r/pull/2", inIssueRow := true, badges := 0 },
   { pathname := "/o/r/pull/3", inIssueRow := false, badges := 0 }]

/-- A page whose rows already carry a badge. -/
def pageDoneEx : List Row :=
  [{ pathname := "/o/r/pull/1", inIssueRow := true, badges := 1 },
   { pathname := "/o/r/pull/2", inIssueRow := true, badges := 1 }]

/-- A row whose pull request is absent from the batch response. -/
def rowMissingEx : Row :=
  { pathname := "/o/r/pull/2", inIssueRow := true, badges := 0 }

/-!
Helper lemmas about `getApprovalCount` and about the annotation routine.
-/

/-- `approvalStep` in terms of the per-node contribution `codeApprover`. -/
theorem foldl_approvalStep_eq (acc : List String) (r : ReviewNode) :
    approvalStep acc r =
      match codeApprover r with
      | some s => if acc.contains s then acc else acc ++ [s]
      | none => acc := by
  cases ha : r.author with
  | none => simp [approvalStep, codeApprover, ha]
  | some a =>
    cases hs : r.state == "APPROVED" <;>
      cases hl : a.login != "" <;>
        cases hc : acc.contains a.login <;>
          simp [approvalStep, codeApprover, ha, hs, hl, hc]

/-- The accumulated approver list never holds a login twice. -/
theorem foldl_approvalStep_nodup (nodes : List ReviewNode) (acc : List String)
    (h : acc.Nodup) : (nodes.foldl approvalStep acc).Nodup := by
  induction nodes generalizing acc with
  | nil => simpa using h
  | cons r rest ih =>
    refine ih _ ?_
    rw [foldl_approvalStep_eq]
    cases hr : codeApprover r with
    | none => exact h
    | some s =>
      simp only
      split
      · exact h
      · rename_i hc
        have hs : s ∉ acc := fun hmem => hc (List.elem_iff.mpr hmem)
        simp [List.nodup_append, h, hs]

/-- The accumulated approver list holds exactly the accumulator plus the
eligible logins of the scanned nodes. -/
theorem foldl_approvalStep_toFinset (nodes : List ReviewNode) (acc : List String) :
    (nodes.foldl approvalStep acc).toFinset =
      acc.toFinset ∪ (codeApprovingLogins nodes).toFinset := by
  induction nodes generalizing acc with
  | nil => simp [codeApprovingLogins]
  | cons r rest ih =>
    simp only [List.foldl_cons, foldl_approvalStep_eq]
    cases hr : codeApprover r with
    | none => simp [ih, codeApprovingLogins, List.filterMap_cons, hr]
    | some s =>
      simp only [codeApprovingLogins, List.filterMap_cons, hr, List.toFinset_cons]
      split
      · rename_i hc
        have hs : s ∈ acc.toFinset := List.mem_toFinset.mpr (List.elem_iff.mp hc)
        rw [ih]
        rw [Finset.union_insert]
        exact (Finset.insert_eq_self.mpr (Finset.mem_union_left _ hs)).symm
      · rw [ih]
        simp [codeApprovingLogins, List.toFinset_append, Finset.insert_eq,
          Finset.union_assoc]

/-- A row that did not pass the filter is untouched by the loop body. -/
theorem processRow_fix (escapeKey : String → String → String → String)
    (response : String → Option PrData) (loggedInUser : Option String) (r : Row)
    (h : rowPending r = false) :
    processRow escapeKey response loggedInUser r = r := by
  simp [processRow, h]

/-- Processing a row twice is the same as processing it once: a freshly
inserted badge makes the row fail the pending filter. -/
theorem processRow_idem (escapeKey : String → String → String → String)
    (response : String → Option PrData) (loggedInUser : Option String) (r : Row) :
    processRow escapeKey response loggedInUser
        (processRow escapeKey response loggedInUser r)
      = processRow escapeKey response loggedInUser r := by
  by_cases hp : rowPending r = true
  · obtain ⟨hin, hb⟩ : r.inIssueRow = true ∧ r.badges = 0 := by
      simpa [rowPending] using hp
    cases hresp : response (toPrConfig escapeKey r.pathname).key with
    | none => simp [processRow, hp, hresp]
    | some prData =>
      cases hbadge : createReviewBadge prData loggedInUser with
      | none => simp [processRow, hp, hresp, hb, hbadge]
      | some badge =>
        simp [processRow, hp, hresp, hb, hbadge, rowPending, hin]
  · have hp' : rowPending r = false := by simpa using hp
    rw [processRow_fix _ _ _ _ hp', processRow_fix _ _ _ _ hp']

/-- One pass inserts at most one badge into a badge-free row. -/
theorem processRow_badges_le (escapeKey : String → String → String → String)
    (response : String → Option PrData) (loggedInUser : Option String) (r : Row)
    (h : r.badges = 0) :
    (processRow escapeKey response loggedInUser r).badges ≤ 1 := by
  by_cases hp : rowPending r = true
  · cases hresp : response (toPrConfig escapeKey r.pathname).key with
    | none => simp [processRow, hp, hresp, h]
    | some prData =>
      cases hbadge : createReviewBadge prData loggedInUser with
      | none => simp [processRow, hp, hresp, h, hbadge]
      | some badge => simp [processRow, hp, hresp, h, hbadge]
  · have hp' : rowPending r = false := by simpa using hp
    rw [processRow_fix _ _ _ _ hp']
    simp [h]

/-- The page after the routine is the row-wise map of the loop body, in
both the early-return branch and the query branch. -/
theorem runAddReviewStatus_snd (escapeKey : String → String → String → String)
    (response : String → Option PrData) (loggedInUser : Option String)
    (page : List Row) :
    (runAddReviewStatus escapeKey response loggedInUser page).2
      = page.map (processRow escapeKey response loggedInUser) := by
  rcases hfe : page.filter rowPending with _ | ⟨r0, rest⟩
  · have hall : ∀ r ∈ page, rowPending r = false := by
      intro r hr
      by_contra hcon
      have hmem : r ∈ page.filter rowPending :=
        List.mem_filter.mpr ⟨hr, by simpa using hcon⟩
      simp [hfe] at hmem
    have hmap : page.map (processRow escapeKey response loggedInUser) = page := by
      have h1 : page.map (processRow escapeKey response loggedInUser) = page.map id :=
        List.map_congr_left fun r hr => processRow_fix _ _ _ _ (hall r hr)
      rw [h1, List.map_id]
    simp [runAddReviewStatus, hfe, hmap]
  · simp [runAddReviewStatus, hfe]

/-!
The claims.
-/

/-- Claim C1: for every snapshot where `isDraft` is false, the viewer is
the PR author, and the number of distinct approving logins is at least 2,
`createReviewBadge` produces the ReadyToMerge badge regardless of all
other fields, with a label carrying the approval count and an
open-conversations flag exactly when some review thread is unresolved. -/
theorem c1_ready_to_merge (pd : PrData) (user : Option String)
    (hMine : pd.author.map Author.login = user)
    (hDraft : pd.isDraft = false)
    (hApprovals : 2 ≤ getApprovalCount pd.reviews) :
    createReviewBadge pd user = some
      { className := "rgh-pr-review-status tooltipped tooltipped-n rgh-review-status-to-merge"
        ariaLabel := "Ready to merge (" ++ toString (getApprovalCount pd.reviews)
          ++ " approvals)"
          ++ (if hasOpenConversations pd.reviewThreads then " - Open conversations" else "")
        child := "merge-parrot.gif"
        indicator := if hasOpenConversations pd.reviewThreads then
            some "Open conversations" else none } := by
  have hb : (pd.author.map Author.login == user) = true := by simp [hMine]
  simp [createReviewBadge, isReadyToMerge, hb, hDraft, hApprovals]

/-- Witness for C1: the spec example of an own non-draft PR with two
distinct approvals, here with one unresolved thread. -/
theorem c1_ready_to_merge_witness :
    createReviewBadge pdReadyEx (some "me") = some
      { className := "rgh-pr-review-status tooltipped tooltipped-n rgh-review-status-to-merge"
        ariaLabel := "Ready to merge (2 approvals) - Open conversations"
        child := "merge-parrot.gif"
        indicator := some "Open conversations" } :=
  (c1_ready_to_merge pdReadyEx (some "me") rfl rfl (by decide)).trans (by decide)

/-- Claim C2: for every snapshot where the viewer authored the PR,
`isDraft` is false, distinct approvals are fewer than 2, and the latest
COMMENTED or CHANGES_REQUESTED review's commit equals the head commit,
`createReviewBadge` produces the FeedbackPending badge, whose label
distinguishes the changes-requested case from the comment case. -/
theorem c2_feedback_pending (pd : PrData) (user : Option String)
    (hMine : pd.author.map Author.login = user)
    (hDraft : pd.isDraft = false)
    (hApprovals : getApprovalCount pd.reviews < 2)
    (latest : LatestCommentOrChanges)
    (hLatest : getLatestCommentOrChangesRequested pd.latestReviews = some latest)
    (hEq : latest.commitOid = some pd.headRefOid) :
    createReviewBadge pd user = some
      { className := "rgh-pr-review-status tooltipped tooltipped-n rgh-review-status-feedback"
        ariaLabel := if latest.state == "CHANGES_REQUESTED" then
            "Changes requested on your PR" else "Comment on your PR"
        child := "FileDiffIcon"
        indicator := none } := by
  have hb : (pd.author.map Author.login == user) = true := by simp [hMine]
  have hnotready : isReadyToMerge true false pd.reviews = false := by
    simp [isReadyToMerge, Nat.not_le.mpr hApprovals]
  have hnonew : hasNewCommitsAfterReview latest.commitOid (some pd.headRefOid) = false := by
    simp [hEq, hasNewCommitsAfterReview]
  simp [createReviewBadge, hnotready, hb, hDraft, hLatest, hnonew]

/-- Witness for C2: own PR with one approval whose latest
CHANGES_REQUESTED review sits on the current head commit. -/
theorem c2_feedback_pending_witness :
    createReviewBadge pdFeedbackEx (some "me") = some
      { className := "rgh-pr-review-status tooltipped tooltipped-n rgh-review-status-feedback"
        ariaLabel := "Changes requested on your PR"
        child := "FileDiffIcon"
        indicator := none } :=
  (c2_feedback_pending pdFeedbackEx (some "me") rfl rfl (by decide)
    { state := "CHANGES_REQUESTED", commitOid := some "h2" } rfl rfl).trans (by decide)

/-- Claim C3: for every non-draft snapshot of a PR the viewer did not
author and on which the viewer has no review, `createReviewBadge`
produces the ReviewNeeded badge when the title lacks the
case-insensitive substring "wip", and no badge when the title contains
it. -/
theorem c3_review_needed (pd : PrData) (user : Option String)
    (hNotMine : pd.author.map Author.login ≠ user)
    (hDraft : pd.isDraft = false)
    (hNoReview : pd.viewerLatestReview.bind ViewerLatestReview.state = none) :
    createReviewBadge pd user =
      if titleContainsWip pd.title then none
      else some
        { className := "rgh-pr-review-status tooltipped tooltipped-n rgh-review-status-needed"
          ariaLabel := "Review needed"
          child := "EyeIcon"
          indicator := none } := by
  have hb : (pd.author.map Author.login == user) = false := by
    simp [hNotMine]
  cases hwip : titleContainsWip pd.title <;>
    simp [createReviewBadge, isReadyToMerge, needsReview, hb, hDraft, hNoReview, hwip]

/-- Witness for C3: an unreviewed non-draft PR gets the ReviewNeeded
badge, and the same PR titled "WIP: add feature" gets none. -/
theorem c3_review_needed_witness :
    createReviewBadge pdNoReviewEx (some "me") = some
      { className := "rgh-pr-review-status tooltipped tooltipped-n rgh-review-status-needed"
        ariaLabel := "Review needed"
        child := "EyeIcon"
        indicator := none }
    ∧ createReviewBadge { pdNoReviewEx with title := "WIP: add feature" } (some "me") = none :=
  ⟨(c3_review_needed pdNoReviewEx (some "me") (by decide) rfl rfl).trans (by decide),
   (c3_review_needed { pdNoReviewEx with title := "WIP: add feature" } (some "me")
      (by decide) rfl rfl).trans (by decide)⟩

/-- Claim C4: for every snapshot of a PR the viewer did not author whose
viewer review state is APPROVED, CHANGES_REQUESTED or COMMENTED,
`createReviewBadge` produces the badge of that review state, and the
badge carries the updated styling and the new-commits indicator exactly
when `hasNewCommitsAfterReview` holds of the reviewed commit and the
head commit. -/
theorem c4_own_review_state_badge (pd : PrData) (user : Option String) (s : RState)
    (hNotMine : pd.author.map Author.login ≠ user)
    (hState : pd.viewerLatestReview.bind ViewerLatestReview.state = some s)
    (hs : s = RState.APPROVED ∨ s = RState.CHANGES_REQUESTED ∨ s = RState.COMMENTED) :
    (getReviewIconConfig (some s) (viewerHasNewCommits pd)).isSome = true ∧
    createReviewBadge pd user =
      (getReviewIconConfig (some s) (viewerHasNewCommits pd)).map fun iconConfig =>
        { className := "rgh-pr-review-status tooltipped tooltipped-n "
            ++ (if viewerHasNewCommits pd then "rgh-review-status-updated"
                else "rgh-review-status-reviewed")
          ariaLabel := iconConfig.label
          child := iconConfig.icon
          indicator := if viewerHasNewCommits pd then
              some "New commits since your review" else none } := by
  have hb : (pd.author.map Author.login == user) = false := by
    simp [hNotMine]
  rcases hs with h | h | h <;> subst h <;>
    cases hnew : viewerHasNewCommits pd <;>
      simp [createReviewBadge, isReadyToMerge, needsReview, getReviewIconConfig,
        viewerHasNewCommits, hb, hState, hnew] <;>
      simp [viewerHasNewCommits] at hnew <;> simp [hnew]

/-- Witness for C4: the spec example of a viewer-approved PR whose head
moved from the reviewed commit "abc" to "def". -/
theorem c4_own_review_state_badge_witness :
    (getReviewIconConfig (some RState.APPROVED) (viewerHasNewCommits pdApprovedEx)).isSome = true
    ∧ createReviewBadge pdApprovedEx (some "me") = some
      { className := "rgh-pr-review-status tooltipped tooltipped-n rgh-review-status-updated"
        ariaLabel := "You approved this PR (new commits since review)"
        child := "CheckIcon"
        indicator := some "New commits since your review" } := by
  have h := c4_own_review_state_badge pdApprovedEx (some "me") RState.APPROVED
    (by decide) rfl (Or.inl rfl)
  exact ⟨h.1, h.2.trans (by decide)⟩

/-- Claim C5: for every snapshot where the viewer authored the PR but
neither the ReadyToMerge rule nor the FeedbackPending rule fires,
`createReviewBadge` produces no badge. -/
theorem c5_own_pr_no_badge (pd : PrData) (user : Option String)
    (hMine : pd.author.map Author.login = user)
    (hNotReady : isReadyToMerge true pd.isDraft pd.reviews = false)
    (hNoFeedback : feedbackPendingApplies pd = false) :
    createReviewBadge pd user = none := by
  have hb : (pd.author.map Author.login == user) = true := by simp [hMine]
  cases hdraft : pd.isDraft <;>
    simp only [hdraft] at hNotReady <;>
    cases hlatest : getLatestCommentOrChangesRequested pd.latestReviews <;>
      simp [feedbackPendingApplies, hdraft, hlatest] at hNoFeedback <;>
      simp [createReviewBadge, hb, hdraft, hlatest, hNotReady, hNoFeedback]

/-- Witness for C5: an own draft PR with no approvals and no feedback
reviews gets no badge. -/
theorem c5_own_pr_no_badge_witness :
    createReviewBadge pdOwnDraftEx (some "me") = none :=
  c5_own_pr_no_badge pdOwnDraftEx (some "me") rfl (by decide) (by decide)

/-- Claim C6: the annotation routine is idempotent -- running it again on
the resulting page changes nothing -- and, starting from a badge-free
page, it leaves at most one badge per row. -/
theorem c6_one_badge_per_row (escapeKey : String → String → String → String)
    (response : String → Option PrData) (loggedInUser : Option String)
    (page : List Row) :
    (runAddReviewStatus escapeKey response loggedInUser
        (runAddReviewStatus escapeKey response loggedInUser page).2).2
      = (runAddReviewStatus escapeKey response loggedInUser page).2
    ∧ ((∀ r ∈ page, r.badges = 0) →
        ∀ r' ∈ (runAddReviewStatus escapeKey response loggedInUser page).2,
          r'.badges ≤ 1) := by
  constructor
  · rw [runAddReviewStatus_snd, runAddReviewStatus_snd, List.map_map]
    exact List.map_congr_left fun r _ => processRow_idem _ _ _ r
  · intro h0 r' hr'
    rw [runAddReviewStatus_snd] at hr'
    obtain ⟨r, hr, rfl⟩ := List.mem_map.mp hr'
    exact processRow_badges_le _ _ _ r (h0 r hr)

/-- Witness for C6: a concrete three-row page where a second run changes
nothing and the first processed row ends with one badge. -/
theorem c6_one_badge_per_row_witness :
    (runAddReviewStatus escapeKeyEx responseEx (some "me")
        (runAddReviewStatus escapeKeyEx responseEx (some "me") pageEx).2).2
      = (runAddReviewStatus escapeKeyEx responseEx (some "me") pageEx).2
    ∧ ({ pathname := "/o/r/pull/1", inIssueRow := true, badges := 1 } : Row).badges ≤ 1 := by
  have h := c6_one_badge_per_row escapeKeyEx responseEx (some "me") pageEx
  exact ⟨h.1, h.2 (by decide) _ (by decide)⟩

/-- Claim C7: a pull request whose response data is missing leaves its
row untouched, while the routine still maps the loop body over every row
of the batch. -/
theorem c7_missing_data_skipped (escapeKey : String → String → String → String)
    (response : String → Option PrData) (loggedInUser : Option String)
    (page : List Row) (r : Row)
    (hnone : response (toPrConfig escapeKey r.pathname).key = none) :
    processRow escapeKey response loggedInUser r = r
    ∧ (runAddReviewStatus escapeKey response loggedInUser page).2
        = page.map (processRow escapeKey response loggedInUser) := by
  refine ⟨?_, runAddReviewStatus_snd escapeKey response loggedInUser page⟩
  by_cases hp : rowPending r = true
  · simp [processRow, hp, hnone]
  · exact processRow_fix _ _ _ _ (by simpa using hp)

/-- Witness for C7: under a batch response with every pull request
absent, a pending row is left untouched. -/
theorem c7_missing_data_skipped_witness :
    processRow escapeKeyEx responseNoneEx (some "me") rowMissingEx = rowMissingEx
    ∧ (runAddReviewStatus escapeKeyEx responseNoneEx (some "me") pageEx).2
        = pageEx.map (processRow escapeKeyEx responseNoneEx (some "me")) :=
  c7_missing_data_skipped escapeKeyEx responseNoneEx (some "me") pageEx rowMissingEx rfl

/-- Claim C8: when every row of the page already carries a badge (in
particular when the page is empty), the routine returns before building
a query: no network call is represented and the page is unchanged. -/
theorem c8_no_query_when_all_badged (escapeKey : String → String → String → String)
    (response : String → Option PrData) (loggedInUser : Option String)
    (page : List Row)
    (hall : ∀ r ∈ page, r.badges ≠ 0) :
    runAddReviewStatus escapeKey response loggedInUser page = (none, page) := by
  have hfe : page.filter rowPending = [] := by
    refine List.filter_eq_nil_iff.mpr fun r hr => ?_
    simp only [rowPending, Bool.and_eq_true, beq_iff_eq, Bool.not_eq_true]
    intro hcon
    exact absurd hcon.2 (hall r hr)
  simp [runAddReviewStatus, hfe]

/-- Witness for C8: a two-row page whose rows both carry a badge. -/
theorem c8_no_query_when_all_badged_witness :
    runAddReviewStatus escapeKeyEx responseEx (some "me") pageDoneEx = (none, pageDoneEx) :=
  c8_no_query_when_all_badged escapeKeyEx responseEx (some "me") pageDoneEx (by decide)

/-- Counterexample to claim C9 as stated: at reviewed-commit id `""` and
head id `"abc"` both ids are present and differ, yet
`hasNewCommitsAfterReview` returns false, because the JS guard
`reviewCommitOid && headRefOid && ...` treats the empty string as
falsy. -/
theorem c9_counterexample :
    ¬ (hasNewCommitsAfterReview (some "") (some "abc") = true ↔
        ((some "" : Option String) ≠ none ∧ (some "abc" : Option String) ≠ none
          ∧ ("" : String) ≠ "abc")) := by
  decide

/-- Claim C9 (amended): `hasNewCommitsAfterReview` returns true iff both
commit ids are present, NON-EMPTY, and differ; whenever either id is
absent it returns false.  A missing latest-review commit id therefore
still yields the FeedbackPending badge on an own PR, and a missing
viewer-review commit id yields the non-updated own-review variant. -/
theorem c9_truthiness (a b : Option String) :
    (hasNewCommitsAfterReview a b = true ↔
      ∃ x y, a = some x ∧ b = some y ∧ x ≠ "" ∧ y ≠ "" ∧ x ≠ y)
    ∧ (a = none ∨ b = none → hasNewCommitsAfterReview a b = false)
    ∧ (∀ (pd : PrData) (user : Option String) (latest : LatestCommentOrChanges),
        pd.author.map Author.login = user →
        isReadyToMerge true pd.isDraft pd.reviews = false →
        pd.isDraft = false →
        getLatestCommentOrChangesRequested pd.latestReviews = some latest →
        latest.commitOid = none →
        createReviewBadge pd user = some
          { className := "rgh-pr-review-status tooltipped tooltipped-n rgh-review-status-feedback"
            ariaLabel := if latest.state == "CHANGES_REQUESTED" then
                "Changes requested on your PR" else "Comment on your PR"
            child := "FileDiffIcon"
            indicator := none })
    ∧ (∀ pd : PrData,
        (pd.viewerLatestReview.bind fun v => v.commit.map Commit.oid) = none →
        viewerHasNewCommits pd = false) := by
  refine ⟨?_, ?_, ?_, ?_⟩
  · cases a <;> cases b <;> simp [hasNewCommitsAfterReview]
    tauto
  · rintro (rfl | rfl)
    · simp [hasNewCommitsAfterReview]
    · cases a <;> simp [hasNewCommitsAfterReview]
  · intro pd user latest hMine hNotReady hDraft hLatest hOid
    have hb : (pd.author.map Author.login == user) = true := by simp [hMine]
    simp only [hDraft] at hNotReady
    have hnonew : hasNewCommitsAfterReview latest.commitOid (some pd.headRefOid) = false := by
      simp [hOid, hasNewCommitsAfterReview]
    simp [createReviewBadge, hb, hDraft, hLatest, hNotReady, hnonew]
  · intro pd h
    simp [viewerHasNewCommits, h, hasNewCommitsAfterReview]

/-- Witness for C9: two distinct non-empty ids do count as new commits,
and an own PR whose latest CHANGES_REQUESTED review has no commit id
still gets the FeedbackPending badge. -/
theorem c9_truthiness_witness :
    hasNewCommitsAfterReview (some "abc") (some "def") = true
    ∧ createReviewBadge pdNoOidEx (some "me") = some
      { className := "rgh-pr-review-status tooltipped tooltipped-n rgh-review-status-feedback"
        ariaLabel := "Changes requested on your PR"
        child := "FileDiffIcon"
        indicator := none } := by
  have h := c9_truthiness (some "abc") (some "def")
  refine ⟨h.1.mpr ⟨"abc", "def", rfl, rfl, by decide, by decide, by decide⟩, ?_⟩
  have h2 := (c9_truthiness (some "abc") (some "def")).2.2.1 pdNoOidEx (some "me")
    { state := "CHANGES_REQUESTED", commitOid := none } rfl (by decide) rfl rfl rfl
  exact h2.trans (by decide)

/-- Counterexample to claim C10 as stated: a single APPROVED review by an
author whose login is the empty string is an approving login, yet
`getApprovalCount` counts it zero times, because the guard
`review.author?.login` treats the empty string as falsy. -/
theorem c10_counterexample :
    getApprovalCount
        (some { nodes := [{ state := "APPROVED", author := some { login := "" } }] }) = 0
    ∧ claimApprovingLogins [{ state := "APPROVED", author := some { login := "" } }] = [""] :=
  ⟨rfl, rfl⟩

/-- Claim C10 (amended): `getApprovalCount` counts each NON-EMPTY
approving login exactly once, ignoring repeated APPROVED reviews by the
same login and APPROVED reviews whose author login is absent or empty;
consequently the count never exceeds the number of distinct logins among
the fetched review nodes. -/
theorem c10_distinct_approver_count (nodes : List ReviewNode) :
    getApprovalCount (some { nodes := nodes }) = (codeApprovingLogins nodes).toFinset.card
    ∧ getApprovalCount (some { nodes := nodes }) ≤ (allLogins nodes).toFinset.card := by
  have hnodup := foldl_approvalStep_nodup nodes [] List.nodup_nil
  have hset := foldl_approvalStep_toFinset nodes []
  have hcount : getApprovalCount (some { nodes := nodes })
      = (codeApprovingLogins nodes).toFinset.card := by
    unfold getApprovalCount
    simp only
    rw [← List.toFinset_card_of_nodup hnodup, hset]
    simp
  refine ⟨hcount, ?_⟩
  rw [hcount]
  apply Finset.card_le_card
  intro x hx
  rw [List.mem_toFinset] at hx ⊢
  rw [codeApprovingLogins, List.mem_filterMap] at hx
  obtain ⟨r, hr, hcap⟩ := hx
  rw [allLogins, List.mem_filterMap]
  refine ⟨r, hr, ?_⟩
  cases ha : r.author with
  | none => simp [codeApprover, ha] at hcap
  | some a =>
    simp only [codeApprover, ha] at hcap
    split at hcap
    · simp_all
    · simp at hcap
